import Mathlib

/-!
Shallow embedding of `src/monitoring/performance_monitor.py` (class
`DatabaseMonitor`).  Python scalar values that can appear in a stats
dictionary are modelled by `PyVal` (Python `None`, a number, or a string);
numbers are modelled as exact rationals.  A Python dict is modelled as an
association list with first-match lookup.  Driver calls that can raise are
modelled by passing the outcome of the call (`Except` an error message) to
the function that performs it, mirroring the `try/except` structure of the
source.
-/

/-- Scalar value stored in a stats dictionary: Python `None`, a number, or a
string. -/
inductive PyVal where
  | null : PyVal
  | num (q : ℚ) : PyVal
  | str (s : String) : PyVal
deriving DecidableEq, Repr

/-- Python truthiness of a `PyVal`: `None`, `0` and `""` are falsy. -/
def PyVal.truthy : PyVal → Bool
  | PyVal.null => false
  | PyVal.num q => decide (q ≠ 0)
  | PyVal.str s => decide (s ≠ "")

/-- A stats dictionary (`Dict[str, value]`), as an association list. -/
abbrev Stats : Type := List (String × PyVal)

/-- First-match lookup in a dict: `some v` when the key is present,
`none` when absent (Python `key in d` / `d[key]`). -/
def dictFind : List (String × PyVal) → String → Option PyVal
  | [], _ => none
  | (k, v) :: rest, key => if k = key then some v else dictFind rest key

/-- Python `d.get(key)`: the stored value, or `None` when the key is
absent. -/
def dictGet (d : List (String × PyVal)) (key : String) : PyVal :=
  (dictFind d key).getD PyVal.null

/-- One slow-query record, as built by the probes: the keys of the dict
produced per row.  The postgresql probe fills the two wait-event fields;
the mysql probe leaves them out, modelled as `none`. -/
structure SlowQueryRecord where
  pid : Int
  usename : String
  datname : String
  duration_ms : ℚ
  state : String
  wait_event_type : Option String
  wait_event : Option String
  query_preview : String
deriving DecidableEq, Repr

/-- One row of `information_schema.PROCESSLIST` as selected by the mysql
slow-query statement: `Id`, `User`, `db`, `Time` (whole seconds), `State`,
`LEFT(Info, 200)`. -/
structure MysqlProcessRow where
  pid : Int
  usename : String
  datname : String
  timeSeconds : Int
  state : String
  query_preview : String
deriving DecidableEq, Repr

/-- The `get_slow_queries_postgresql` method.  The SQL already returns rows
shaped like `SlowQueryRecord` (the Python body only zips column names onto
each tuple); the argument is the outcome of `cur.execute`/`fetchall`.  On
any driver error the `except` branch logs and returns `[]`. -/
def get_slow_queries_postgresql (queryOutcome : Except String (List SlowQueryRecord)) :
    List SlowQueryRecord :=
  match queryOutcome with
  | Except.ok rows => rows
  | Except.error _ => []

/-- The `get_slow_queries_mysql` method: each PROCESSLIST row is reshaped
into a record with `duration_ms = Time * 1000` (`row[3] * 1000`, the
comment in the source says convert to ms).  On any driver error the
`except` branch logs and returns `[]`. -/
def get_slow_queries_mysql (queryOutcome : Except String (List MysqlProcessRow)) :
    List SlowQueryRecord :=
  match queryOutcome with
  | Except.ok rows =>
      rows.map (fun r =>
        { pid := r.pid
          usename := r.usename
          datname := r.datname
          duration_ms := (r.timeSeconds : ℚ) * 1000
          state := r.state
          wait_event_type := none
          wait_event := none
          query_preview := r.query_preview })
  | Except.error _ => []

/-- One row of `pg_stat_activity`, restricted to the field the stats
statements read (`state`). -/
structure PgSession where
  state : String
deriving DecidableEq, Repr

/-- The server-side state read by the four postgresql stats statements:
the `pg_stat_activity` rows, the summed `blks_hit` and `blks_read` of
`pg_stat_database` for the current database, and the `pg_size_pretty`
string. -/
structure PgDbState where
  sessions : List PgSession
  blks_hit : ℚ
  blks_read : ℚ
  size_pretty : String
deriving DecidableEq, Repr

/-- Postgres `ROUND(x, 2)` on a numeric: half away from zero; the cache
ratio is nonnegative, where this agrees with half up. -/
def roundTo2 (q : ℚ) : ℚ :=
  (⌊q * 100 + 1/2⌋ : ℚ) / 100

/-- The cache-hit-ratio SQL statement:
`ROUND(100 * sum(blks_hit) / NULLIF(sum(blks_hit) + sum(blks_read), 0), 2)`.
`NULLIF(d, 0)` makes the division yield SQL NULL when the denominator is
zero, and `ROUND(NULL, 2)` is NULL, modelled as `none`. -/
def cache_hit_ratio_sql (hits reads : ℚ) : Option ℚ :=
  if hits + reads = 0 then none
  else some (roundTo2 (100 * hits / (hits + reads)))

/-- The `get_database_stats_postgresql` method: runs the four statements
and stores `result[0]` under each key (SQL NULL becomes Python `None`).
`active_connections` counts `pg_stat_activity` rows with
`state = 'active'`, `total_connections` counts all rows.  On any driver
error the `except` branch logs and returns `{}`. -/
def get_database_stats_postgresql (queryOutcome : Except String PgDbState) : Stats :=
  match queryOutcome with
  | Except.ok db =>
      [("active_connections",
          PyVal.num ((db.sessions.filter (fun s => s.state = "active")).length : ℚ)),
        ("total_connections", PyVal.num (db.sessions.length : ℚ)),
        ("database_size", PyVal.str db.size_pretty),
        ("cache_hit_ratio",
          match cache_hit_ratio_sql db.blks_hit db.blks_read with
          | some q => PyVal.num q
          | none => PyVal.null)]
  | Except.error _ => []

/-- One row of `information_schema.PROCESSLIST`, restricted to the field
the mysql stats statements read (`Command`). -/
structure MysqlProcess where
  command : String
deriving DecidableEq, Repr

/-- The server-side state read by the three mysql stats statements: the
PROCESSLIST rows and the size string built by `CONCAT(...)` (NULL when the
schema has no tables, modelled as `none`). -/
structure MysqlDbState where
  processes : List MysqlProcess
  size_concat : Option String
deriving DecidableEq, Repr

/-- The `get_database_stats_mysql` method: `active_connections` counts
PROCESSLIST rows with `Command != 'Sleep'`, `total_connections` counts all
rows; `database_size` stores the CONCAT result (`None` when NULL).  On any
driver error the `except` branch logs and returns `{}`. -/
def get_database_stats_mysql (queryOutcome : Except String MysqlDbState) : Stats :=
  match queryOutcome with
  | Except.ok db =>
      [("active_connections",
          PyVal.num ((db.processes.filter (fun p => ¬ p.command = "Sleep")).length : ℚ)),
        ("total_connections", PyVal.num (db.processes.length : ℚ)),
        ("database_size",
          match db.size_concat with
          | some s => PyVal.str s
          | none => PyVal.null)]
  | Except.error _ => []

/-- The `get_slow_queries` dispatcher on `self.db_type`: unknown types fall
through to `return []`. -/
def get_slow_queries (db_type : String)
    (pgOutcome : Except String (List SlowQueryRecord))
    (mysqlOutcome : Except String (List MysqlProcessRow)) : List SlowQueryRecord :=
  if db_type = "postgresql" then get_slow_queries_postgresql pgOutcome
  else if db_type = "mysql" then get_slow_queries_mysql mysqlOutcome
  else []

/-- The `get_database_stats` dispatcher on `self.db_type`: unknown types
fall through to `return {}`. -/
def get_database_stats (db_type : String)
    (pgOutcome : Except String PgDbState)
    (mysqlOutcome : Except String MysqlDbState) : Stats :=
  if db_type = "postgresql" then get_database_stats_postgresql pgOutcome
  else if db_type = "mysql" then get_database_stats_mysql mysqlOutcome
  else []

/-- One `send_alert` call made by `check_and_alert`, keeping the data
embedded in the subject/message strings: the PID and the duration in
seconds (`duration/1000`) with the query preview for a very slow query,
the active-connection count, or the cache-hit ratio. -/
inductive Alert where
  | verySlowQuery (pid : Int) (seconds : ℚ) (preview : String) : Alert
  | highActiveConnections (active : ℚ) : Alert
  | lowCacheHitRatio (value : ℚ) : Alert
deriving DecidableEq, Repr

/-- Whether an alert is a "Very Slow Query Detected" alert. -/
def Alert.isVerySlow : Alert → Bool
  | Alert.verySlowQuery _ _ _ => true
  | _ => false

/-- Whether an alert is a "High Active Connection Count" alert. -/
def Alert.isHighActive : Alert → Bool
  | Alert.highActiveConnections _ => true
  | _ => false

/-- Whether an alert is a "Low Cache Hit Ratio" alert. -/
def Alert.isLowCache : Alert → Bool
  | Alert.lowCacheHitRatio _ => true
  | _ => false

/-- Number of "High Active Connection Count" alerts in a list. -/
def countHighAlerts (l : List Alert) : Nat :=
  (l.filter Alert.isHighActive).length

/-- Number of "Low Cache Hit Ratio" alerts in a list. -/
def countLowCacheAlerts (l : List Alert) : Nat :=
  (l.filter Alert.isLowCache).length

/-- The slow-query loop of `check_and_alert`: for each record, after the
log lines, `if duration > 5000` sends the "Very Slow Query Detected" alert
with the PID, `duration/1000` seconds and the preview. -/
def slow_query_alerts : List SlowQueryRecord → List Alert
  | [] => []
  | r :: rest =>
      (if 5000 < r.duration_ms then
        [Alert.verySlowQuery r.pid (r.duration_ms / 1000) r.query_preview]
      else []) ++ slow_query_alerts rest

/-- The connection check of `check_and_alert`:
`if stats.get('active_connections'):` (truthiness, so `None`, `0` and an
absent key all skip), then `if active > 100` sends the alert.  Comparing a
non-numeric truthy value with `100` raises a `TypeError` in Python,
modelled as `Except.error`. -/
def active_connection_check (stats : Stats) : Except String (List Alert) :=
  if (dictGet stats "active_connections").truthy then
    match dictGet stats "active_connections" with
    | PyVal.num q =>
        Except.ok (if 100 < q then [Alert.highActiveConnections q] else [])
    | _ => Except.error "TypeError: unorderable types"
  else Except.ok []

/-- The cache check of `check_and_alert`:
`if 'cache_hit_ratio' in stats:` (key membership), then
`if cache_ratio and cache_ratio < 95` — the truthiness conjunct
short-circuits, so a falsy value (`None` or `0`) sends nothing; a truthy
non-numeric value would raise a `TypeError` on the comparison. -/
def cache_ratio_check (stats : Stats) : Except String (List Alert) :=
  match dictFind stats "cache_hit_ratio" with
  | none => Except.ok []
  | some v =>
      if v.truthy then
        match v with
        | PyVal.num q =>
            Except.ok (if q < 95 then [Alert.lowCacheHitRatio q] else [])
        | _ => Except.error "TypeError: unorderable types"
      else Except.ok []

/-- The dictionary returned by `check_and_alert`. -/
structure Summary where
  slow_queries_count : Nat
  slow_queries : List SlowQueryRecord
  stats : Stats
deriving DecidableEq, Repr

/-- The `check_and_alert` method, given the probe results it fetched: the
slow-query loop runs first, then the connection check, then the cache
check, and the summary dictionary is returned.  An uncaught `TypeError`
from a check propagates (there is no `try` in this method). -/
def check_and_alert (slow_queries : List SlowQueryRecord) (stats : Stats) :
    Except String (List Alert × Summary) :=
  match active_connection_check stats with
  | Except.error e => Except.error e
  | Except.ok connAlerts =>
      match cache_ratio_check stats with
      | Except.error e => Except.error e
      | Except.ok cacheAlerts =>
          Except.ok (slow_query_alerts slow_queries ++ connAlerts ++ cacheAlerts,
            { slow_queries_count := slow_queries.length
              slow_queries := slow_queries
              stats := stats })

/-- A driver-level connection attempt made inside `connect`. -/
inductive DriverCall where
  | psycopg2_connect : DriverCall
  | pymysql_connect : DriverCall
deriving DecidableEq, Repr

/-- The exception caught by the `except Exception` clause of `connect`:
either the `ValueError` raised for an unsupported `db_type`, or an error
raised by the driver call itself. -/
inductive CaughtError where
  | valueErrorUnsupported (db_type : String) : CaughtError
  | driverError : CaughtError
deriving DecidableEq, Repr

/-- The observable outcome of one `connect` call: which driver calls were
made, which exception the `except` clause caught (`connect` never lets an
exception escape), and the returned boolean. -/
structure ConnectOutcome where
  driver_calls : List DriverCall
  caught : Option CaughtError
  result : Bool
deriving DecidableEq, Repr

/-- The `connect` method.  `db_type` is `self.db_type`; `driver_ok` is
whether the driver connection call would succeed.  For an unsupported
type a `ValueError` is raised inside the same `try`, caught by the same
`except Exception` clause that catches driver failures, logged, and
`connect` returns `False` — exactly as for a driver failure. -/
def connect (db_type : String) (driver_ok : Bool) : ConnectOutcome :=
  if db_type = "postgresql" then
    if driver_ok then
      { driver_calls := [DriverCall.psycopg2_connect], caught := none, result := true }
    else
      { driver_calls := [DriverCall.psycopg2_connect],
        caught := some CaughtError.driverError, result := false }
  else if db_type = "mysql" then
    if driver_ok then
      { driver_calls := [DriverCall.pymysql_connect], caught := none, result := true }
    else
      { driver_calls := [DriverCall.pymysql_connect],
        caught := some CaughtError.driverError, result := false }
  else
    { driver_calls := [],
      caught := some (CaughtError.valueErrorUnsupported db_type), result := false }

/-- A driver connection object, tracking only whether it has been
closed. -/
structure Conn where
  closed : Bool
deriving DecidableEq, Repr

/-- External driver model: `psycopg2`'s `Connection.close` is a no-op on
an already-closed connection (since psycopg2 2.2 it no longer raises). -/
def psycopg2_close (_ : Conn) : Except String Conn :=
  Except.ok { closed := true }

/-- External driver model: `pymysql`'s `Connection.close` raises
`err.Error("Already closed")` when the connection is already closed. -/
def pymysql_close (c : Conn) : Except String Conn :=
  if c.closed then Except.error "Already closed"
  else Except.ok { closed := true }

/-- The `disconnect` method: `if self.connection: self.connection.close()`.
`self.connection` starts as `None` (never opened) and is never reset, so
a non-`None` handle — open or already closed — gets `close()` invoked on
it again, with whatever the driver's `close` does.  Returns the new value
of `self.connection` and whether `close()` was invoked; a driver error
propagates (there is no `try` in this method). -/
def disconnect (close : Conn → Except String Conn) :
    Option Conn → Except String (Option Conn × Bool)
  | none => Except.ok (none, false)
  | some c =>
      match close c with
      | Except.ok c2 => Except.ok (some c2, true)
      | Except.error e => Except.error e

/-- The mutable state the `monitor` loop carries across cycles: the check
counter (`check_count`) is the only per-cycle state besides the connection
handle. -/
structure LoopState where
  check_count : Nat
deriving DecidableEq, Repr

/-- One iteration of the `monitor` loop body: increments `check_count`,
then runs `check_and_alert` on the probe results of this cycle. -/
def monitor_cycle (st : LoopState) (slow_queries : List SlowQueryRecord)
    (stats : Stats) : LoopState × Except String (List Alert × Summary) :=
  ({ check_count := st.check_count + 1 }, check_and_alert slow_queries stats)

/-! Helper lemmas shared by the claim theorems. -/

lemma aux_countLow_append (l1 l2 : List Alert) :
    countLowCacheAlerts (l1 ++ l2) = countLowCacheAlerts l1 + countLowCacheAlerts l2 := by
  simp [countLowCacheAlerts, List.filter_append]

lemma aux_countHigh_append (l1 l2 : List Alert) :
    countHighAlerts (l1 ++ l2) = countHighAlerts l1 + countHighAlerts l2 := by
  simp [countHighAlerts, List.filter_append]

lemma aux_slow_alerts_filter_map (qs : List SlowQueryRecord) :
    slow_query_alerts qs =
      (qs.filter (fun r => 5000 < r.duration_ms)).map
        (fun r => Alert.verySlowQuery r.pid (r.duration_ms / 1000) r.query_preview) := by
  induction qs with
  | nil => rfl
  | cons r rest ih =>
      by_cases hr : 5000 < r.duration_ms
      · simp [slow_query_alerts, List.filter_cons, hr, ih]
      · simp [slow_query_alerts, List.filter_cons, hr, ih]

lemma aux_slow_alerts_filter_verySlow (qs : List SlowQueryRecord) :
    (slow_query_alerts qs).filter Alert.isVerySlow = slow_query_alerts qs := by
  induction qs with
  | nil => rfl
  | cons r rest ih =>
      by_cases hr : 5000 < r.duration_ms
      · simp [slow_query_alerts, hr, List.filter_cons, Alert.isVerySlow, ih]
      · simp [slow_query_alerts, hr, ih]

lemma aux_countHigh_slow_alerts (qs : List SlowQueryRecord) :
    countHighAlerts (slow_query_alerts qs) = 0 := by
  induction qs with
  | nil => rfl
  | cons r rest ih =>
      by_cases hr : 5000 < r.duration_ms
      · simp [slow_query_alerts, hr, countHighAlerts, List.filter_cons,
          Alert.isHighActive] at ih ⊢
        exact ih
      · simp [slow_query_alerts, hr]
        exact ih

lemma aux_countLow_slow_alerts (qs : List SlowQueryRecord) :
    countLowCacheAlerts (slow_query_alerts qs) = 0 := by
  induction qs with
  | nil => rfl
  | cons r rest ih =>
      by_cases hr : 5000 < r.duration_ms
      · simp [slow_query_alerts, hr, countLowCacheAlerts, List.filter_cons,
          Alert.isLowCache] at ih ⊢
        exact ih
      · simp [slow_query_alerts, hr]
        exact ih

lemma aux_active_shape (stats : Stats) (l : List Alert)
    (h : active_connection_check stats = Except.ok l) :
    l = [] ∨ ∃ q, l = [Alert.highActiveConnections q] := by
  unfold active_connection_check at h
  by_cases ht : (dictGet stats "active_connections").truthy
  · rw [if_pos ht] at h
    cases hv : dictGet stats "active_connections" with
    | null => rw [hv] at h; cases h
    | num q =>
        rw [hv] at h
        simp only [Except.ok.injEq] at h
        by_cases hq : 100 < q
        · right; exact ⟨q, by rw [← h, if_pos hq]⟩
        · left; rw [← h, if_neg hq]
    | str s => rw [hv] at h; cases h
  · rw [if_neg ht] at h
    simp only [Except.ok.injEq] at h
    left; exact h.symm

lemma aux_cache_eval_none (stats : Stats)
    (hv : dictFind stats "cache_hit_ratio" = none) :
    cache_ratio_check stats = Except.ok [] := by
  simp [cache_ratio_check, hv]

lemma aux_cache_eval_null (stats : Stats)
    (hv : dictFind stats "cache_hit_ratio" = some PyVal.null) :
    cache_ratio_check stats = Except.ok [] := by
  simp [cache_ratio_check, hv, PyVal.truthy]

lemma aux_cache_eval_num (stats : Stats) (q : ℚ)
    (hv : dictFind stats "cache_hit_ratio" = some (PyVal.num q)) :
    cache_ratio_check stats =
      Except.ok (if q ≠ 0 then (if q < 95 then [Alert.lowCacheHitRatio q] else [])
        else []) := by
  by_cases hq : q = 0
  · simp [cache_ratio_check, hv, PyVal.truthy, hq]
  · simp [cache_ratio_check, hv, PyVal.truthy, hq]

lemma aux_cache_eval_str (stats : Stats) (s : String)
    (hv : dictFind stats "cache_hit_ratio" = some (PyVal.str s)) :
    cache_ratio_check stats =
      (if s = "" then Except.ok [] else Except.error "TypeError: unorderable types") := by
  by_cases hs : s = ""
  · simp [cache_ratio_check, hv, PyVal.truthy, hs]
  · simp [cache_ratio_check, hv, PyVal.truthy, hs]

lemma aux_active_eval_num (stats : Stats) (q : ℚ)
    (hv : dictGet stats "active_connections" = PyVal.num q) :
    active_connection_check stats =
      Except.ok (if q ≠ 0 then
        (if 100 < q then [Alert.highActiveConnections q] else []) else []) := by
  by_cases hq : q = 0
  · simp [active_connection_check, hv, PyVal.truthy, hq]
  · simp [active_connection_check, hv, PyVal.truthy, hq]

lemma aux_active_eval_null (stats : Stats)
    (hv : dictGet stats "active_connections" = PyVal.null) :
    active_connection_check stats = Except.ok [] := by
  simp [active_connection_check, hv, PyVal.truthy]

lemma aux_active_eval_str (stats : Stats) (s : String)
    (hv : dictGet stats "active_connections" = PyVal.str s) :
    active_connection_check stats =
      (if s = "" then Except.ok [] else Except.error "TypeError: unorderable types") := by
  by_cases hs : s = ""
  · simp [active_connection_check, hv, PyVal.truthy, hs]
  · simp [active_connection_check, hv, PyVal.truthy, hs]

lemma aux_cache_shape (stats : Stats) (l : List Alert)
    (h : cache_ratio_check stats = Except.ok l) :
    l = [] ∨ ∃ q, l = [Alert.lowCacheHitRatio q] := by
  cases hv : dictFind stats "cache_hit_ratio" with
  | none =>
      rw [aux_cache_eval_none stats hv] at h
      simp only [Except.ok.injEq] at h
      left; exact h.symm
  | some v =>
      cases v with
      | null =>
          rw [aux_cache_eval_null stats hv] at h
          simp only [Except.ok.injEq] at h
          left; exact h.symm
      | num q =>
          rw [aux_cache_eval_num stats q hv] at h
          simp only [Except.ok.injEq] at h
          by_cases hq : q = 0
          · left; rw [← h]; simp [hq]
          · by_cases hlt : q < 95
            · right; exact ⟨q, by rw [← h]; simp [hq, hlt]⟩
            · left; rw [← h]; simp [hq, hlt]
      | str s =>
          rw [aux_cache_eval_str stats s hv] at h
          by_cases hs : s = ""
          · rw [if_pos hs] at h
            simp only [Except.ok.injEq] at h
            left; exact h.symm
          · rw [if_neg hs] at h
            cases h

lemma aux_countLow_active (stats : Stats) (l : List Alert)
    (h : active_connection_check stats = Except.ok l) :
    countLowCacheAlerts l = 0 := by
  rcases aux_active_shape stats l h with h0 | ⟨q, h1⟩
  · rw [h0]; rfl
  · rw [h1]; rfl

lemma aux_countHigh_cache (stats : Stats) (l : List Alert)
    (h : cache_ratio_check stats = Except.ok l) :
    countHighAlerts l = 0 := by
  rcases aux_cache_shape stats l h with h0 | ⟨q, h1⟩
  · rw [h0]; rfl
  · rw [h1]; rfl

lemma aux_filter_verySlow_active (stats : Stats) (l : List Alert)
    (h : active_connection_check stats = Except.ok l) :
    l.filter Alert.isVerySlow = [] := by
  rcases aux_active_shape stats l h with h0 | ⟨q, h1⟩
  · rw [h0]; rfl
  · rw [h1]; rfl

lemma aux_filter_verySlow_cache (stats : Stats) (l : List Alert)
    (h : cache_ratio_check stats = Except.ok l) :
    l.filter Alert.isVerySlow = [] := by
  rcases aux_cache_shape stats l h with h0 | ⟨q, h1⟩
  · rw [h0]; rfl
  · rw [h1]; rfl

lemma aux_check_decomp (qs : List SlowQueryRecord) (stats : Stats)
    (alerts : List Alert) (summ : Summary)
    (h : check_and_alert qs stats = Except.ok (alerts, summ)) :
    ∃ l2 l3, active_connection_check stats = Except.ok l2 ∧
      cache_ratio_check stats = Except.ok l3 ∧
      alerts = slow_query_alerts qs ++ l2 ++ l3 ∧
      summ = { slow_queries_count := qs.length, slow_queries := qs, stats := stats } := by
  unfold check_and_alert at h
  cases ha : active_connection_check stats with
  | error e => rw [ha] at h; cases h
  | ok l2 =>
      rw [ha] at h
      cases hc : cache_ratio_check stats with
      | error e => rw [hc] at h; cases h
      | ok l3 =>
          rw [hc] at h
          simp only [Except.ok.injEq, Prod.mk.injEq] at h
          exact ⟨l2, l3, rfl, rfl, h.1.symm, h.2.symm⟩

lemma aux_active_countHigh (stats : Stats) (l : List Alert)
    (h : active_connection_check stats = Except.ok l) :
    countHighAlerts l =
      (match dictFind stats "active_connections" with
        | some (PyVal.num q) => if 100 < q then 1 else 0
        | _ => 0) := by
  cases hv : dictFind stats "active_connections" with
  | none =>
      have hg : dictGet stats "active_connections" = PyVal.null := by
        simp [dictGet, hv]
      rw [aux_active_eval_null stats hg] at h
      simp only [Except.ok.injEq] at h
      rw [← h]
      rfl
  | some v =>
      have hg : dictGet stats "active_connections" = v := by
        simp [dictGet, hv]
      cases v with
      | null =>
          rw [aux_active_eval_null stats hg] at h
          simp only [Except.ok.injEq] at h
          rw [← h]
          rfl
      | num q =>
          rw [aux_active_eval_num stats q hg] at h
          simp only [Except.ok.injEq] at h
          rw [← h]
          by_cases hq : q = 0
          · have hgt0 : ¬ (100 : ℚ) < 0 := by norm_num
            simp [hq, hgt0, countHighAlerts]
          · by_cases hgt : 100 < q
            · simp [hq, hgt, countHighAlerts, Alert.isHighActive]
            · simp [hq, hgt, countHighAlerts]
      | str s =>
          rw [aux_active_eval_str stats s hg] at h
          by_cases hs : s = ""
          · rw [if_pos hs] at h
            simp only [Except.ok.injEq] at h
            rw [← h]
            rfl
          · rw [if_neg hs] at h
            cases h

lemma aux_cache_countLow (stats : Stats) (l : List Alert)
    (h : cache_ratio_check stats = Except.ok l) :
    countLowCacheAlerts l =
      (match dictFind stats "cache_hit_ratio" with
        | some (PyVal.num q) => if q ≠ 0 ∧ q < 95 then 1 else 0
        | _ => 0) := by
  cases hv : dictFind stats "cache_hit_ratio" with
  | none =>
      rw [aux_cache_eval_none stats hv] at h
      simp only [Except.ok.injEq] at h
      rw [← h]
      rfl
  | some v =>
      cases v with
      | null =>
          rw [aux_cache_eval_null stats hv] at h
          simp only [Except.ok.injEq] at h
          rw [← h]
          rfl
      | num q =>
          rw [aux_cache_eval_num stats q hv] at h
          simp only [Except.ok.injEq] at h
          rw [← h]
          by_cases hq : q = 0
          · simp [hq, countLowCacheAlerts]
          · by_cases hlt : q < 95
            · simp [hq, hlt, countLowCacheAlerts, Alert.isLowCache]
            · simp [hq, hlt, countLowCacheAlerts]
      | str s =>
          rw [aux_cache_eval_str stats s hv] at h
          by_cases hs : s = ""
          · rw [if_pos hs] at h
            simp only [Except.ok.injEq] at h
            rw [← h]
            rfl
          · rw [if_neg hs] at h
            cases h

/-! Claim theorems. -/

/-- C1 (corrected): the number of "Low Cache Hit Ratio" findings emitted by
`check_and_alert` is exactly one when the key `cache_hit_ratio` is present
with a numeric value that is nonzero and strictly less than 95, and zero
when the key is absent or the value is `None` or `0` — the truthiness
guard `if cache_ratio and ...` also skips a present value of `0`, so
"present and < 95" alone does not suffice. -/
theorem c1_cache_alert_count (qs : List SlowQueryRecord) (stats : Stats)
    (alerts : List Alert) (summ : Summary)
    (h : check_and_alert qs stats = Except.ok (alerts, summ)) :
    countLowCacheAlerts alerts =
      (match dictFind stats "cache_hit_ratio" with
        | some (PyVal.num q) => if q ≠ 0 ∧ q < 95 then 1 else 0
        | _ => 0) := by
  obtain ⟨l2, l3, hA, hC, hal, -⟩ := aux_check_decomp qs stats alerts summ h
  subst hal
  rw [aux_countLow_append, aux_countLow_append, aux_countLow_slow_alerts,
    aux_countLow_active stats l2 hA, aux_cache_countLow stats l3 hC]
  omega

/-- C1 witness: on a stats dict holding `cache_hit_ratio = 94` and no slow
queries, `check_and_alert` succeeds and emits exactly one "Low Cache Hit
Ratio" finding. -/
theorem c1_cache_alert_count_witness :
    countLowCacheAlerts [Alert.lowCacheHitRatio 94] =
      (match dictFind [("cache_hit_ratio", PyVal.num 94)] "cache_hit_ratio" with
        | some (PyVal.num q) => if q ≠ 0 ∧ q < 95 then 1 else 0
        | _ => 0) :=
  c1_cache_alert_count [] [("cache_hit_ratio", PyVal.num 94)]
    [Alert.lowCacheHitRatio 94]
    { slow_queries_count := 0, slow_queries := [],
      stats := [("cache_hit_ratio", PyVal.num 94)] } rfl

/-- C1 counterexample: `cache_hit_ratio` present with value `0`, which is
strictly less than 95, yet `check_and_alert` emits no finding at all — the
value `0` is falsy in Python, so the `if cache_ratio and cache_ratio < 95`
guard skips it. -/
theorem c1_counterexample_zero_ratio :
    dictFind [("cache_hit_ratio", PyVal.num 0)] "cache_hit_ratio" =
      some (PyVal.num 0) ∧
    (0 : ℚ) < 95 ∧
    check_and_alert [] [("cache_hit_ratio", PyVal.num 0)] =
      Except.ok ([],
        { slow_queries_count := 0
          slow_queries := []
          stats := [("cache_hit_ratio", PyVal.num 0)] }) :=
  ⟨rfl, by decide, rfl⟩

/-- C2 (corrected): for a dialect tag that is neither `postgresql` nor
`mysql`, `connect` makes no driver connection call and the `ValueError`
raised for the unsupported type is caught by the same generic
`except Exception` clause that handles connection failures, so `connect`
just returns `False` — it does not signal the configuration error
distinctly. -/
theorem c2_unsupported_dialect_connect (db_type : String) (driver_ok : Bool)
    (h1 : db_type ≠ "postgresql") (h2 : db_type ≠ "mysql") :
    connect db_type driver_ok =
      { driver_calls := [],
        caught := some (CaughtError.valueErrorUnsupported db_type),
        result := false } := by
  simp [connect, h1, h2]

/-- C2 witness: `connect` on the unsupported tag `sqlite`. -/
theorem c2_unsupported_dialect_connect_witness :
    connect "sqlite" true =
      { driver_calls := [],
        caught := some (CaughtError.valueErrorUnsupported "sqlite"),
        result := false } :=
  c2_unsupported_dialect_connect "sqlite" true (by decide) (by decide)

/-- C2 counterexample: for the unsupported tag `sqlite` no driver call is
made, but the caller-visible outcome of `connect` is the boolean `false`,
identical to the outcome of a failed `postgresql` connection attempt — the
unsupported-dialect error is not raised to the caller and is not
distinguishable from a `ConnectionError`. -/
theorem c2_counterexample_not_distinct :
    (connect "sqlite" true).driver_calls = [] ∧
    (connect "sqlite" true).result = false ∧
    (connect "sqlite" true).result = (connect "postgresql" false).result :=
  ⟨rfl, rfl, rfl⟩

/-- C3 (confirmed): every probe catches a driver failure and returns its
empty result (`[]` for the slow-query probes, `{}` for the stats probes),
and `check_and_alert` over those empty results succeeds with no findings
and an all-empty summary — a cycle never aborts from a single probe
failure. -/
theorem c3_probe_failure_isolated (e1 e2 e3 e4 : String) :
    get_slow_queries_postgresql (Except.error e1) = [] ∧
    get_slow_queries_mysql (Except.error e2) = [] ∧
    get_database_stats_postgresql (Except.error e3) = [] ∧
    get_database_stats_mysql (Except.error e4) = [] ∧
    check_and_alert [] [] =
      Except.ok ([], { slow_queries_count := 0, slow_queries := [], stats := [] }) :=
  ⟨rfl, rfl, rfl, rfl, rfl⟩

/-- C4 (confirmed): the "Very Slow Query Detected" findings emitted by
`check_and_alert` are exactly one per processed record with
`duration_ms > 5000` (strict), each citing the record's pid and its
duration in seconds (`duration_ms / 1000`); records at exactly 5000 ms
produce none. -/
theorem c4_very_slow_alert_iff (qs : List SlowQueryRecord) (stats : Stats)
    (alerts : List Alert) (summ : Summary)
    (h : check_and_alert qs stats = Except.ok (alerts, summ)) :
    alerts.filter Alert.isVerySlow =
      (qs.filter (fun r => 5000 < r.duration_ms)).map
        (fun r => Alert.verySlowQuery r.pid (r.duration_ms / 1000) r.query_preview) := by
  obtain ⟨l2, l3, hA, hC, hal, -⟩ := aux_check_decomp qs stats alerts summ h
  subst hal
  rw [List.filter_append, List.filter_append, aux_slow_alerts_filter_verySlow,
    aux_filter_verySlow_active stats l2 hA, aux_filter_verySlow_cache stats l3 hC,
    List.append_nil, List.append_nil, aux_slow_alerts_filter_map]

/-- Sample postgresql slow-query record above the very-slow threshold. -/
def sampleSlowQueryA : SlowQueryRecord where
  pid := 7
  usename := "alice"
  datname := "app"
  duration_ms := 5001
  state := "active"
  wait_event_type := none
  wait_event := none
  query_preview := "SELECT 1"

/-- Sample postgresql slow-query record exactly at the 5000 ms boundary. -/
def sampleSlowQueryB : SlowQueryRecord where
  pid := 8
  usename := "bob"
  datname := "app"
  duration_ms := 5000
  state := "active"
  wait_event_type := none
  wait_event := none
  query_preview := "SELECT 2"

/-- C4 witness: of a 5001 ms record and a 5000 ms record, exactly the
first yields a "Very Slow Query Detected" finding. -/
theorem c4_very_slow_alert_iff_witness :
    ([Alert.verySlowQuery 7 (sampleSlowQueryA.duration_ms / 1000) "SELECT 1"]).filter
        Alert.isVerySlow =
      (([sampleSlowQueryA, sampleSlowQueryB].filter (fun r => 5000 < r.duration_ms)).map
        (fun r => Alert.verySlowQuery r.pid (r.duration_ms / 1000) r.query_preview)) :=
  c4_very_slow_alert_iff [sampleSlowQueryA, sampleSlowQueryB] []
    [Alert.verySlowQuery 7 (sampleSlowQueryA.duration_ms / 1000) "SELECT 1"]
    { slow_queries_count := 2, slow_queries := [sampleSlowQueryA, sampleSlowQueryB], stats := [] }
    rfl

/-- C5 (confirmed): the number of "High Active Connection Count" findings
emitted by `check_and_alert` is exactly one when the key
`active_connections` holds a numeric value strictly greater than 100, and
zero in every other case (absent key, `None`, or a value at or below
100). -/
theorem c5_active_alert_count (qs : List SlowQueryRecord) (stats : Stats)
    (alerts : List Alert) (summ : Summary)
    (h : check_and_alert qs stats = Except.ok (alerts, summ)) :
    countHighAlerts alerts =
      (match dictFind stats "active_connections" with
        | some (PyVal.num q) => if 100 < q then 1 else 0
        | _ => 0) := by
  obtain ⟨l2, l3, hA, hC, hal, -⟩ := aux_check_decomp qs stats alerts summ h
  subst hal
  rw [aux_countHigh_append, aux_countHigh_append, aux_countHigh_slow_alerts,
    aux_countHigh_cache stats l3 hC, aux_active_countHigh stats l2 hA]
  omega

/-- C5 witness: `active_connections = 101` yields exactly one "High Active
Connection Count" finding. -/
theorem c5_active_alert_count_witness :
    countHighAlerts [Alert.highActiveConnections 101] =
      (match dictFind [("active_connections", PyVal.num 101)] "active_connections" with
        | some (PyVal.num q) => if 100 < q then 1 else 0
        | _ => 0) :=
  c5_active_alert_count [] [("active_connections", PyVal.num 101)]
    [Alert.highActiveConnections 101]
    { slow_queries_count := 0, slow_queries := [], stats := [("active_connections", PyVal.num 101)] }
    rfl

/-- C6 (confirmed): with zero buffer hits and zero reads the postgresql
stats probe stores `None` under `cache_hit_ratio` (the `NULLIF` guard
turns the zero denominator into SQL NULL instead of a division error),
and `check_and_alert` on those stats completes without error and emits no
"Low Cache Hit Ratio" finding. -/
theorem c6_zero_blocks_cache_null (db : PgDbState) (qs : List SlowQueryRecord)
    (hh : db.blks_hit = 0) (hr : db.blks_read = 0) :
    dictFind (get_database_stats_postgresql (Except.ok db)) "cache_hit_ratio" =
      some PyVal.null ∧
    ∃ alerts summ,
      check_and_alert qs (get_database_stats_postgresql (Except.ok db)) =
        Except.ok (alerts, summ) ∧
      countLowCacheAlerts alerts = 0 := by
  have hstats : get_database_stats_postgresql (Except.ok db) =
      [("active_connections",
          PyVal.num ((db.sessions.filter (fun s => s.state = "active")).length : ℚ)),
        ("total_connections", PyVal.num (db.sessions.length : ℚ)),
        ("database_size", PyVal.str db.size_pretty),
        ("cache_hit_ratio", PyVal.null)] := by
    simp [get_database_stats_postgresql, cache_hit_ratio_sql, hh, hr]
  have hfind : dictFind (get_database_stats_postgresql (Except.ok db)) "cache_hit_ratio" =
      some PyVal.null := by
    rw [hstats]
    rfl
  have hget : dictGet (get_database_stats_postgresql (Except.ok db)) "active_connections" =
      PyVal.num ((db.sessions.filter (fun s => s.state = "active")).length : ℚ) := by
    rw [hstats]
    rfl
  have hA := aux_active_eval_num (get_database_stats_postgresql (Except.ok db))
    ((db.sessions.filter (fun s => s.state = "active")).length : ℚ) hget
  have hC := aux_cache_eval_null (get_database_stats_postgresql (Except.ok db)) hfind
  refine ⟨hfind,
    slow_query_alerts qs ++
      (if ((db.sessions.filter (fun s => s.state = "active")).length : ℚ) ≠ 0 then
        (if (100 : ℚ) < ((db.sessions.filter (fun s => s.state = "active")).length : ℚ) then
          [Alert.highActiveConnections
            ((db.sessions.filter (fun s => s.state = "active")).length : ℚ)]
        else [])
      else []) ++ [],
    { slow_queries_count := qs.length, slow_queries := qs, stats := get_database_stats_postgresql (Except.ok db) },
    ?_, ?_⟩
  · unfold check_and_alert
    rw [hA, hC]
  · rw [aux_countLow_append, aux_countLow_append, aux_countLow_slow_alerts]
    by_cases hq : ((db.sessions.filter (fun s => s.state = "active")).length : ℚ) = 0
    · simp [hq, countLowCacheAlerts]
    · by_cases hgt :
          (100 : ℚ) < ((db.sessions.filter (fun s => s.state = "active")).length : ℚ)
      · simp [hq, hgt, countLowCacheAlerts, Alert.isLowCache]
      · simp [hq, hgt, countLowCacheAlerts]

/-- C6 witness: a database state with no sessions, zero hits, zero reads. -/
theorem c6_zero_blocks_cache_null_witness :
    dictFind (get_database_stats_postgresql (Except.ok
        { sessions := [], blks_hit := 0, blks_read := 0, size_pretty := "7 MB" }))
      "cache_hit_ratio" = some PyVal.null ∧
    ∃ alerts summ,
      check_and_alert [] (get_database_stats_postgresql (Except.ok
          { sessions := [], blks_hit := 0, blks_read := 0, size_pretty := "7 MB" })) =
        Except.ok (alerts, summ) ∧
      countLowCacheAlerts alerts = 0 :=
  c6_zero_blocks_cache_null
    { sessions := [], blks_hit := 0, blks_read := 0, size_pretty := "7 MB" } [] rfl rfl

/-- C7 (confirmed): every record produced by the mysql slow-query probe
carries `duration_ms` equal to the server-reported whole-second `Time`
multiplied by 1000. -/
theorem c7_mysql_duration_normalized (rows : List MysqlProcessRow) :
    (get_slow_queries_mysql (Except.ok rows)).map (fun r => r.duration_ms) =
      rows.map (fun r => (r.timeSeconds : ℚ) * 1000) := by
  simp [get_slow_queries_mysql]

/-- C8 (corrected): `disconnect` on a never-opened session is a no-op that
never raises; on a session whose handle is set it unconditionally invokes
the driver's `close()` — the handle is never reset to `None`, so calling
`disconnect` on an already-closed session re-invokes `close()`, which is
safe under psycopg2's idempotent close but raises under pymysql. -/
theorem c8_disconnect_close_paths :
    (∀ close, disconnect close none = Except.ok (none, false)) ∧
    (∀ c, disconnect psycopg2_close (some c) =
      Except.ok (some { closed := true }, true)) ∧
    disconnect pymysql_close (some { closed := true }) =
      Except.error "Already closed" :=
  ⟨fun _ => rfl, fun _ => rfl, rfl⟩

/-- C8 counterexample: on an already-closed pymysql session, `disconnect`
is not a safe no-op — the unconditional second `close()` raises the
driver's "Already closed" error, which propagates out of `disconnect`. -/
theorem c8_counterexample_double_close :
    disconnect pymysql_close (some { closed := true }) =
      Except.error "Already closed" := rfl

/-- C9 (confirmed): the outcome of a monitoring cycle (findings and
summary) depends only on the probe results of that cycle; the loop counter
— the only state the loop carries across cycles — does not influence it. -/
theorem c9_cycle_output_pure (st1 st2 : LoopState) (qs : List SlowQueryRecord)
    (stats : Stats) :
    (monitor_cycle st1 qs stats).2 = (monitor_cycle st2 qs stats).2 := rfl

/-- C10 (confirmed): for a stored dialect tag other than `postgresql` and
`mysql`, both dispatchers return their empty result without touching a
probe, and a check cycle over those empty results completes with zero
findings. -/
theorem c10_unknown_dialect_empty_cycle (db_type : String)
    (pgQ : Except String (List SlowQueryRecord))
    (myQ : Except String (List MysqlProcessRow))
    (pgS : Except String PgDbState) (myS : Except String MysqlDbState)
    (h1 : db_type ≠ "postgresql") (h2 : db_type ≠ "mysql") :
    get_slow_queries db_type pgQ myQ = [] ∧
    get_database_stats db_type pgS myS = [] ∧
    check_and_alert (get_slow_queries db_type pgQ myQ)
        (get_database_stats db_type pgS myS) =
      Except.ok ([], { slow_queries_count := 0, slow_queries := [], stats := [] }) := by
  have e1 : get_slow_queries db_type pgQ myQ = [] := by
    simp [get_slow_queries, h1, h2]
  have e2 : get_database_stats db_type pgS myS = [] := by
    simp [get_database_stats, h1, h2]
  refine ⟨e1, e2, ?_⟩
  rw [e1, e2]
  rfl

/-- C10 witness: the unknown tag `sqlite`, with arbitrary probe inputs. -/
theorem c10_unknown_dialect_empty_cycle_witness :
    get_slow_queries "sqlite" (Except.ok []) (Except.error "boom") = [] ∧
    get_database_stats "sqlite" (Except.error "boom")
      (Except.ok { processes := [], size_concat := none }) = [] ∧
    check_and_alert (get_slow_queries "sqlite" (Except.ok []) (Except.error "boom"))
        (get_database_stats "sqlite" (Except.error "boom")
          (Except.ok { processes := [], size_concat := none })) =
      Except.ok ([], { slow_queries_count := 0, slow_queries := [], stats := [] }) :=
  c10_unknown_dialect_empty_cycle "sqlite" (Except.ok []) (Except.error "boom")
    (Except.error "boom") (Except.ok { processes := [], size_concat := none })
    (by decide) (by decide)
